import Mathlib

/- Verification of nktkas/mouse-hook against its specification.

The repository ships three variants of the MouseHook class: a fine-grained
in-process variant (src/MouseHook.ts lines 1-213, per-button event names,
wheel sign extension, disassembled flags), a coarse in-process variant
(src/MouseHook.ts lines 215-401, four event names, raw field values), and a
worker variant (src/MouseHook_worker.ts) whose hook logic is inlined in the
worker source string.

Modelling conventions: machine integers are Nat/Int with explicit two-power
arithmetic; the 20-byte MSLLHOOKSTRUCT prefix is a list of bytes (each memory
cell reduced mod 256); a JS null pointer is Option.none; a hook-callback
invocation is a pure function returning the list of events dispatched on the
EventTarget, the list of CallNextHookEx invocations, and the returned value;
close paths are traces of native calls. -/

/-- Little-endian unsigned 32-bit read of the four bytes at offsets
off..off+3, as Deno.UnsafePointerView.getUint32 performs it. Out-of-range
reads yield 0; the hook contract guarantees at least a full record, so the
decoder never reads out of range on reachable inputs. -/
def getUint32 (buf : List Nat) (off : Nat) : Nat :=
  match buf.drop off with
  | b0 :: b1 :: b2 :: b3 :: _ =>
      b0 % 256 + 256 * (b1 % 256) + 65536 * (b2 % 256) + 16777216 * (b3 % 256)
  | _ => 0

/-- Signed reinterpretation of an unsigned 32-bit word (two's complement). -/
def toInt32 (w : Nat) : Int :=
  if w < 2147483648 then (w : Int) else (w : Int) - 4294967296

/-- Little-endian signed 32-bit read, as Deno.UnsafePointerView.getInt32. -/
def getInt32 (buf : List Nat) (off : Nat) : Int := toInt32 (getUint32 buf off)

/-- Little-endian byte encoding of a 32-bit word. -/
def encodeU32 (w : Nat) : List Nat :=
  [w % 256, w / 256 % 256, w / 65536 % 256, w / 16777216 % 256]

/-- A 20-byte MSLLHOOKSTRUCT-prefix record: x, y, mouseData, flags, time as
little-endian 32-bit fields at offsets 0, 4, 8, 12, 16. -/
def encodeRecord (x y mouseData flags time : Nat) : List Nat :=
  encodeU32 x ++ encodeU32 y ++ encodeU32 mouseData ++ encodeU32 flags ++
    encodeU32 time

/-- MouseEventNameMap of the fine-grained variant (MouseHook.ts lines 63-74),
as a lookup from the wParam message code. -/
def MouseEventNameMap (w : Nat) : Option String :=
  if w = 0x0201 then some "lbuttondown"
  else if w = 0x0202 then some "lbuttonup"
  else if w = 0x0204 then some "rbuttondown"
  else if w = 0x0205 then some "rbuttonup"
  else if w = 0x0207 then some "mbuttondown"
  else if w = 0x0208 then some "mbuttonup"
  else if w = 0x020B then some "xbuttondown"
  else if w = 0x020C then some "xbuttonup"
  else if w = 0x0200 then some "mousemove"
  else if w = 0x020A then some "mousewheel"
  else none

/-- Event type the fine-grained variant passes to dispatchEvent: a mapped
name, or, through the wParam fallback at MouseHook.ts line 160, the numeric
message code itself (which CustomEvent stringifies). -/
inductive HookEventType where
  | name (s : String)
  | code (w : Nat)
  deriving DecidableEq

/-- Disassembled MSLLHOOKSTRUCT flags (Flag interface, lines 38-43). -/
structure EventFlag where
  injected : Bool
  lowerIlInjected : Bool
  deriving DecidableEq

/-- Point structure of the fine-grained variant (lines 27-32). -/
structure Point where
  x : Int
  y : Int
  deriving DecidableEq

/-- Payload of the fine-grained variant (MouseEvent interface, lines 7-21). -/
structure MouseEventV1 where
  pt : Point
  mouseData : Int
  flags : EventFlag
  time : Nat
  deriving DecidableEq

/-- JS expression (v >> 16) & 0xFFFF on an int32 v: the arithmetic right
shift is flooring division by 65536 and the mask keeps the low 16 bits of
the two's complement, i.e. the nonnegative remainder mod 65536. -/
def jsHiWord (v : Int) : Nat := (Int.fdiv v 65536 % 65536).toNat

/-- MouseData computation of the fine-grained hook callback (lines 167-168):
the high word of the raw 32-bit field, sign-extended by subtracting 0x10000
for mousewheel events whose top bit is set. -/
def mouseDataV1 (eventType : HookEventType) (raw : Int) : Int :=
  let mouseData := jsHiWord raw
  if eventType = HookEventType.name "mousewheel" ∧ mouseData &&& 0x8000 ≠ 0 then
    (mouseData : Int) - 0x10000
  else
    (mouseData : Int)

/-- Flags decoding of the fine-grained hook callback (lines 171-175). -/
def decodeFlags (rawFlags : Nat) : EventFlag :=
  { injected := rawFlags &&& 0x01 != 0
    lowerIlInjected := rawFlags &&& 0x02 != 0 }

/-- Event type and payload the fine-grained callback dispatches for a given
wParam and record (MouseHook.ts lines 160-181). -/
def mkEventV1 (wParam : Nat) (buf : List Nat) : HookEventType × MouseEventV1 :=
  let eventType :=
    match MouseEventNameMap wParam with
    | some s => HookEventType.name s
    | none => HookEventType.code wParam
  let pt : Point := { x := getInt32 buf 0, y := getInt32 buf 4 }
  let mouseData := mouseDataV1 eventType (getInt32 buf 8)
  let flags := decodeFlags (getUint32 buf 12)
  let time := getUint32 buf 16
  (eventType, { pt := pt, mouseData := mouseData, flags := flags, time := time })

/-- Observable result of one invocation of the fine-grained hook callback:
events dispatched on the EventTarget, CallNextHookEx invocations with their
(nCode, wParam, lParam) arguments, and the returned value. -/
structure HookCallResultV1 where
  dispatched : List (HookEventType × MouseEventV1)
  nextHookCalls : List (Int × Nat × Option (List Nat))
  result : Int
  deriving DecidableEq

/-- Hook callback of the fine-grained variant (MouseHook.ts lines 157-184):
when nCode is nonnegative and lParam non-null, one CustomEvent is dispatched
(with the numeric wParam as its type when the map has no entry);
CallNextHookEx is always invoked once with the original arguments and its
value returned. -/
def hookCallbackV1 (next : Int → Nat → Option (List Nat) → Int)
    (nCode : Int) (wParam : Nat) (lParam : Option (List Nat)) : HookCallResultV1 :=
  let dispatched :=
    if 0 ≤ nCode then
      match lParam with
      | some buf => [mkEventV1 wParam buf]
      | none => []
    else []
  { dispatched := dispatched
    nextHookCalls := [(nCode, wParam, lParam)]
    result := next nCode wParam lParam }

/-- MouseHook.eventNameMap of the coarse variant (MouseHook.ts lines
262-273). -/
def eventNameMap (w : Nat) : Option String :=
  if w = 0x0200 then some "mousemove"
  else if w = 0x0201 then some "mousedown"
  else if w = 0x0202 then some "mouseup"
  else if w = 0x0204 then some "mousedown"
  else if w = 0x0205 then some "mouseup"
  else if w = 0x0207 then some "mousedown"
  else if w = 0x0208 then some "mouseup"
  else if w = 0x020A then some "mousewheel"
  else if w = 0x020B then some "mousedown"
  else if w = 0x020C then some "mouseup"
  else none

/-- Payload of the coarse variant and of the worker (MouseEvent interface,
MouseHook.ts lines 218-229): the five raw field values. -/
structure MouseEventV2 where
  x : Int
  y : Int
  mouseData : Int
  flags : Nat
  time : Nat
  deriving DecidableEq

/-- Detail object of the coarse hook callback (MouseHook.ts lines 359-369):
x, y, mouseData read as signed int32 at offsets 0, 4, 8; flags, time read as
unsigned uint32 at offsets 12, 16. -/
def mkEventV2 (buf : List Nat) : MouseEventV2 :=
  { x := getInt32 buf 0
    y := getInt32 buf 4
    mouseData := getInt32 buf 8
    flags := getUint32 buf 12
    time := getUint32 buf 16 }

/-- Observable result of one invocation of the coarse or worker callback. -/
structure HookCallResultV2 where
  dispatched : List (String × MouseEventV2)
  nextHookCalls : List (Int × Nat × Option (List Nat))
  result : Int
  deriving DecidableEq

/-- Hook callback of the coarse variant (MouseHook.ts lines 350-375): events
whose wParam has no map entry are dropped; CallNextHookEx is always invoked
once with the original arguments and its value returned. -/
def hookCallbackV2 (next : Int → Nat → Option (List Nat) → Int)
    (nCode : Int) (wParam : Nat) (lParam : Option (List Nat)) : HookCallResultV2 :=
  let dispatched :=
    if 0 ≤ nCode then
      match lParam with
      | some buf =>
        match eventNameMap wParam with
        | some eventName => [(eventName, mkEventV2 buf)]
        | none => []
      | none => []
    else []
  { dispatched := dispatched
    nextHookCalls := [(nCode, wParam, lParam)]
    result := next nCode wParam lParam }

/-- eventNameMap inlined in the worker source (MouseHook_worker.ts lines
28-39). -/
def eventNameMapWorker (w : Nat) : Option String :=
  if w = 0x0200 then some "mousemove"
  else if w = 0x0201 then some "mousedown"
  else if w = 0x0202 then some "mouseup"
  else if w = 0x0204 then some "mousedown"
  else if w = 0x0205 then some "mouseup"
  else if w = 0x0207 then some "mousedown"
  else if w = 0x0208 then some "mouseup"
  else if w = 0x020A then some "mousewheel"
  else if w = 0x020B then some "mousedown"
  else if w = 0x020C then some "mouseup"
  else none

/-- Detail object of the worker-inlined callback (MouseHook_worker.ts lines
73-79). -/
def mkEventWorker (buf : List Nat) : MouseEventV2 :=
  { x := getInt32 buf 0
    y := getInt32 buf 4
    mouseData := getInt32 buf 8
    flags := getUint32 buf 12
    time := getUint32 buf 16 }

/-- Hook callback inlined in the worker (MouseHook_worker.ts lines 64-86). -/
def hookCallbackWorker (next : Int → Nat → Option (List Nat) → Int)
    (nCode : Int) (wParam : Nat) (lParam : Option (List Nat)) : HookCallResultV2 :=
  let dispatched :=
    if 0 ≤ nCode then
      match lParam with
      | some buf =>
        match eventNameMapWorker wParam with
        | some eventName => [(eventName, mkEventWorker buf)]
        | none => []
      | none => []
    else []
  { dispatched := dispatched
    nextHookCalls := [(nCode, wParam, lParam)]
    result := next nCode wParam lParam }

/-- Chain-continuation stub returning 0, used for concrete evaluations. -/
def next0 : Int → Nat → Option (List Nat) → Int := fun _ _ _ => 0

/-- Ten native mouse message codes the mapper tables handle. -/
def knownCodes : List Nat :=
  [0x0200, 0x0201, 0x0202, 0x0204, 0x0205, 0x0207, 0x0208, 0x020A, 0x020B,
   0x020C]

/-- Native release and lifecycle calls issued by the close and failure
paths. -/
inductive NativeCall where
  | postQuitMessage (exitCode : Int)
  | unhookWindowsHookEx (hhk : Nat)
  | callbackClose
  | user32Close
  | workerTerminate
  deriving DecidableEq

/-- JS exceptions the embedded paths can surface: an Error thrown by the
library code, or a TypeError raised by the runtime. -/
inductive JsError where
  | jsErr (msg : String)
  | jsTypeError (msg : String)
  deriving DecidableEq

/-- Message of the TypeError Deno FFI raises when a value that is neither
null nor a pointer object is passed for a pointer parameter. -/
def ffiPointerTypeErrorMsg : String := "undefined is not a valid FFI pointer value"

/-- Close of the fine-grained variant (MouseHook.ts lines 203-208): every
invocation unconditionally issues PostQuitMessage(0), UnhookWindowsHookEx on
the stored handle, the callback release and the module release, in that
order; there is no installed/uninstalled guard. In this variant close is
reachable only after the handle field was assigned, so the handle is a plain
value. -/
def closeV1 (hookHandle : Nat) : List NativeCall :=
  [NativeCall.postQuitMessage 0, NativeCall.unhookWindowsHookEx hookHandle,
   NativeCall.callbackClose, NativeCall.user32Close]

/-- Two successive invocations of the fine-grained close on the same
session: the method is stateless, so the second invocation re-issues every
native call of the first. -/
def doubleCloseV1 (hookHandle : Nat) : List NativeCall :=
  closeV1 hookHandle ++ closeV1 hookHandle

/-- Close of the coarse variant (MouseHook.ts lines 394-399). The handle is
none when the hookHandle field was never assigned: the constructor failure
branch at line 385 runs close() before the assignment at line 388, so the
field still holds the JS undefined. Deno FFI rejects a value that is neither
null nor a pointer object for the pointer parameter of UnhookWindowsHookEx
with a TypeError, so in that case the method aborts after PostQuitMessage
and the callback release and module release never run. -/
def closeV2 (hookHandle : Option Nat) : List NativeCall × Option JsError :=
  match hookHandle with
  | some hhk =>
      ([NativeCall.postQuitMessage 0, NativeCall.unhookWindowsHookEx hhk,
        NativeCall.callbackClose, NativeCall.user32Close], none)
  | none =>
      ([NativeCall.postQuitMessage 0],
       some (JsError.jsTypeError ffiPointerTypeErrorMsg))

/-- Failure branch of the fine-grained constructor (MouseHook.ts lines
188-192, SetWindowsHookExW returned null): release the callback resource,
release the module, then throw the descriptive error. -/
def constructorFailureV1 : List NativeCall × JsError :=
  ([NativeCall.callbackClose, NativeCall.user32Close],
   JsError.jsErr "Failed to install mouse hook")

/-- Failure branch of the coarse constructor (MouseHook.ts lines 384-387,
SetWindowsHookExW returned null): this.close() on a session whose hookHandle
field is still unassigned, then, if close returned normally, the descriptive
error; an exception escaping close() propagates instead. -/
def constructorFailureV2 : List NativeCall × JsError :=
  match closeV2 none with
  | (calls, some e) => (calls, e)
  | (calls, none) => (calls, JsError.jsErr "Failed to install mouse hook")

/-- Close of the worker variant (MouseHook_worker.ts lines 134-136): a
single Worker.terminate call; none of the native release primitives is
invoked by this method itself. -/
def closeWorker : List NativeCall := [NativeCall.workerTerminate]

/-- Effect of Worker.terminate on the liveness of the worker context: the
worker ends up terminated, and terminating an already terminated worker
changes nothing (a specified no-op that never throws). -/
def workerTerminateEffect (_alive : Bool) : Bool := false

/-- C5: every hook-callback invocation, in all three variants, regardless of
the message code and of the nCode/pointer guard outcome, invokes
CallNextHookEx exactly once with the original nCode, wParam and lParam
arguments and returns its result. -/
theorem c5_chain_continuation (next : Int → Nat → Option (List Nat) → Int)
    (nCode : Int) (wParam : Nat) (lParam : Option (List Nat)) :
    (hookCallbackV1 next nCode wParam lParam).nextHookCalls = [(nCode, wParam, lParam)] ∧
    (hookCallbackV1 next nCode wParam lParam).result = next nCode wParam lParam ∧
    (hookCallbackV2 next nCode wParam lParam).nextHookCalls = [(nCode, wParam, lParam)] ∧
    (hookCallbackV2 next nCode wParam lParam).result = next nCode wParam lParam ∧
    (hookCallbackWorker next nCode wParam lParam).nextHookCalls = [(nCode, wParam, lParam)] ∧
    (hookCallbackWorker next nCode wParam lParam).result = next nCode wParam lParam :=
  ⟨rfl, rfl, rfl, rfl, rfl, rfl⟩

/-- C10: the coarse in-process hook callback and the worker-inlined hook
callback agree on every input (nCode, wParam, lParam): the same
dispatch-or-drop decision, the same event name, an identical payload, the
same chain continuation and return value. -/
theorem c10_coarse_worker_equivalence (next : Int → Nat → Option (List Nat) → Int)
    (nCode : Int) (wParam : Nat) (lParam : Option (List Nat)) :
    hookCallbackV2 next nCode wParam lParam = hookCallbackWorker next nCode wParam lParam :=
  rfl

/-- C6 (counterexample to the claim as stated): a second close of an
in-process session is not a no-op; the trace it appends after the first
close re-releases the already-freed callback resource and re-unhooks the
already-removed handle. -/
theorem c6_counterexample :
    List.drop 4 (doubleCloseV1 1) ≠ [] ∧
    NativeCall.callbackClose ∈ List.drop 4 (doubleCloseV1 1) ∧
    NativeCall.unhookWindowsHookEx 1 ∈ List.drop 4 (doubleCloseV1 1) := by
  decide

/-- C6 (amended): close of the worker variant is idempotent (terminating an
already terminated worker changes nothing) and never fails; close of the
in-process variants re-issues all four release calls on every invocation,
and the coarse variant's close invoked on a session whose handle field was
never assigned raises a TypeError. -/
theorem c6_close_idempotence :
    (∀ a : Bool, workerTerminateEffect (workerTerminateEffect a) = workerTerminateEffect a) ∧
    closeWorker = [NativeCall.workerTerminate] ∧
    (∀ hhk : Nat, closeV1 hhk =
      [NativeCall.postQuitMessage 0, NativeCall.unhookWindowsHookEx hhk,
       NativeCall.callbackClose, NativeCall.user32Close]) ∧
    (closeV2 none).2 = some (JsError.jsTypeError ffiPointerTypeErrorMsg) :=
  ⟨fun _ => rfl, rfl, fun _ => rfl, rfl⟩

/-- C7 (counterexample to the claim as stated): the worker variant's close
is a single forced termination of the worker context; it performs none of
the four release steps itself — in particular neither the quit-signal post
nor the callback release appears in its trace. -/
theorem c7_counterexample :
    closeWorker = [NativeCall.workerTerminate] ∧
    NativeCall.callbackClose ∉ closeWorker ∧
    NativeCall.user32Close ∉ closeWorker ∧
    NativeCall.postQuitMessage 0 ∉ closeWorker := by
  decide

/-- C7 (amended): close of either in-process variant on an installed session
issues exactly the four release calls in the order quit-signal post, hook
unregistration, callback release, module release; the worker variant's close
instead forcibly terminates the worker context. -/
theorem c7_close_release_order (hhk : Nat) :
    closeV2 (some hhk) =
      ([NativeCall.postQuitMessage 0, NativeCall.unhookWindowsHookEx hhk,
        NativeCall.callbackClose, NativeCall.user32Close], none) ∧
    closeV1 hhk =
      [NativeCall.postQuitMessage 0, NativeCall.unhookWindowsHookEx hhk,
       NativeCall.callbackClose, NativeCall.user32Close] ∧
    closeWorker = [NativeCall.workerTerminate] :=
  ⟨rfl, rfl, rfl⟩

/-- C8 (code bug, evaluated at the failing input): when SetWindowsHookExW
returns null, the fine-grained constructor releases the callback resource
and the module and throws the single descriptive error, but the coarse
constructor's failure branch reuses close() on a session whose hookHandle
field was never assigned; the FFI TypeError aborts close() right after
PostQuitMessage, so the callback resource and the module are not released
and the surfaced error is not the descriptive one. -/
theorem c8_install_failure_paths :
    constructorFailureV1 =
      ([NativeCall.callbackClose, NativeCall.user32Close],
       JsError.jsErr "Failed to install mouse hook") ∧
    constructorFailureV2 =
      ([NativeCall.postQuitMessage 0], JsError.jsTypeError ffiPointerTypeErrorMsg) ∧
    NativeCall.callbackClose ∉ constructorFailureV2.1 ∧
    NativeCall.user32Close ∉ constructorFailureV2.1 ∧
    constructorFailureV2.2 ≠ JsError.jsErr "Failed to install mouse hook" := by
  decide

/-- C1 (counterexample to the claim as stated): in the coarse variant a
mousewheel record whose mouseData field holds 0x00780000 — high word 0x0078,
top bit clear, so the claim requires an exposed wheel delta of +120 — is
dispatched with mouseData 7864320, the raw 32-bit field value. -/
theorem c1_counterexample :
    getUint32 (encodeRecord 100 200 7864320 0 5) 8 / 65536 % 65536 = 0x0078 ∧
    ((hookCallbackV2 next0 0 0x020A (some (encodeRecord 100 200 7864320 0 5))).dispatched.map
      (fun d => d.2.mouseData)) = [7864320] ∧
    (7864320 : Int) ≠ 120 := by
  decide

/-- C1 (amended): in the fine-grained variant the exposed mouseData is the
16-bit high word of the raw field, sign-extended by subtracting 0x10000 for
mousewheel events whose top bit is set (so a 0x8000 high word yields -32768
and a 0x0078 high word yields +120) and unmodified otherwise, for wheel and
non-wheel events alike; the coarse variant exposes the raw signed 32-bit
mouseData field unmodified for every event kind, with no high-word
extraction or sign extension. -/
theorem c1_wheel_sign_extension (eventType : HookEventType) (raw : Int) (buf : List Nat) :
    (eventType = HookEventType.name "mousewheel" → jsHiWord raw &&& 0x8000 ≠ 0 →
      mouseDataV1 eventType raw = (jsHiWord raw : Int) - 0x10000) ∧
    (jsHiWord raw &&& 0x8000 = 0 → mouseDataV1 eventType raw = (jsHiWord raw : Int)) ∧
    (eventType ≠ HookEventType.name "mousewheel" →
      mouseDataV1 eventType raw = (jsHiWord raw : Int)) ∧
    (mkEventV2 buf).mouseData = getInt32 buf 8 ∧
    mouseDataV1 (HookEventType.name "mousewheel") (toInt32 0x80000000) = -32768 ∧
    mouseDataV1 (HookEventType.name "mousewheel") (toInt32 0x00780000) = 120 := by
  refine ⟨?_, ?_, ?_, rfl, by decide, by decide⟩
  · intro h1 h2
    simp only [mouseDataV1]
    rw [if_pos ⟨h1, h2⟩]
  · intro h
    simp only [mouseDataV1]
    rw [if_neg fun hc => hc.2 h]
  · intro h
    simp only [mouseDataV1]
    rw [if_neg fun hc => h hc.1]

/-- C1 (witness): the sign-extension branch of the amended statement applied
at the concrete top-bit-set input. -/
theorem c1_wheel_sign_extension_witness :
    mouseDataV1 (HookEventType.name "mousewheel") (toInt32 0x80000000) =
      (jsHiWord (toInt32 0x80000000) : Int) - 0x10000 :=
  (c1_wheel_sign_extension (HookEventType.name "mousewheel") (toInt32 0x80000000) []).1
    rfl (by decide)

/-- C2 (counterexample to the claim as stated): the fine-grained variant
does not drop an event whose message code is unmapped; wParam 0x0203 (a
double-click code outside the table of ten) is dispatched as an event whose
type is the numeric code itself, so one event is forwarded, not zero. -/
theorem c2_counterexample :
    ((hookCallbackV1 next0 0 0x0203 (some (encodeRecord 0 0 0 0 0))).dispatched.map
      Prod.fst) = [HookEventType.code 0x0203] ∧
    (hookCallbackV1 next0 0 0x0203 (some (encodeRecord 0 0 0 0 0))).dispatched ≠ [] := by
  decide

/-- C2 (amended): the coarse and worker variants dispatch no event when the
message code is outside the table of ten known codes; the fine-grained
variant instead dispatches such an event under the numeric code itself; and
every one of the ten known codes is mapped by all three tables. -/
theorem c2_unknown_code_handling (nCode : Int) (w : Nat) (buf : List Nat)
    (next : Int → Nat → Option (List Nat) → Int) :
    (eventNameMap w = none → (hookCallbackV2 next nCode w (some buf)).dispatched = []) ∧
    (eventNameMapWorker w = none →
      (hookCallbackWorker next nCode w (some buf)).dispatched = []) ∧
    (MouseEventNameMap w = none → 0 ≤ nCode →
      ((hookCallbackV1 next nCode w (some buf)).dispatched.map Prod.fst) =
        [HookEventType.code w]) ∧
    (w ∈ knownCodes →
      (MouseEventNameMap w).isSome ∧ (eventNameMap w).isSome ∧
        (eventNameMapWorker w).isSome) := by
  refine ⟨?_, ?_, ?_, ?_⟩
  · intro h
    simp [hookCallbackV2, h]
  · intro h
    simp [hookCallbackWorker, h]
  · intro h hn
    simp [hookCallbackV1, hn, mkEventV1, h]
  · intro hw
    simp only [knownCodes, List.mem_cons, List.not_mem_nil, or_false] at hw
    rcases hw with rfl|rfl|rfl|rfl|rfl|rfl|rfl|rfl|rfl|rfl <;> decide

/-- C2 (witness): the amended statement evaluated at the unmapped message
code 0x0203 and at a known code. -/
theorem c2_unknown_code_handling_witness :
    (hookCallbackV2 next0 0 0x0203 (some (encodeRecord 1 2 3 4 5))).dispatched = [] ∧
    ((hookCallbackV1 next0 0 0x0203 (some (encodeRecord 1 2 3 4 5))).dispatched.map
      Prod.fst) = [HookEventType.code 0x0203] ∧
    (MouseEventNameMap 0x0200).isSome :=
  ⟨(c2_unknown_code_handling 0 0x0203 (encodeRecord 1 2 3 4 5) next0).1 (by decide),
   (c2_unknown_code_handling 0 0x0203 (encodeRecord 1 2 3 4 5) next0).2.2.1
     (by decide) (by decide),
   ((c2_unknown_code_handling 0 0x0200 (encodeRecord 1 2 3 4 5) next0).2.2.2
     (by decide)).1⟩

/-- C3: the coarse decoder reads exactly the five little-endian 32-bit
fields at fixed offsets — x signed at 0, y signed at 4, mouseData signed at
8, flags unsigned at 12, time unsigned at 16 — and for every supported event
kind the dispatched payload equals the values stored at those offsets
byte-exactly. -/
theorem c3_record_roundtrip (x y md fl t : Nat)
    (hx : x < 4294967296) (hy : y < 4294967296) (hmd : md < 4294967296)
    (hfl : fl < 4294967296) (ht : t < 4294967296)
    (w : Nat) (hw : w ∈ knownCodes)
    (next : Int → Nat → Option (List Nat) → Int) (nCode : Int) (hn : 0 ≤ nCode) :
    getInt32 (encodeRecord x y md fl t) 0 = toInt32 x ∧
    getInt32 (encodeRecord x y md fl t) 4 = toInt32 y ∧
    getInt32 (encodeRecord x y md fl t) 8 = toInt32 md ∧
    getUint32 (encodeRecord x y md fl t) 12 = fl ∧
    getUint32 (encodeRecord x y md fl t) 16 = t ∧
    ((hookCallbackV2 next nCode w (some (encodeRecord x y md fl t))).dispatched.map
      Prod.snd) =
      [{ x := toInt32 x, y := toInt32 y, mouseData := toInt32 md, flags := fl,
         time := t }] := by
  have h0 : getUint32 (encodeRecord x y md fl t) 0 =
      x % 256 % 256 + 256 * (x / 256 % 256 % 256) + 65536 * (x / 65536 % 256 % 256) +
        16777216 * (x / 16777216 % 256 % 256) := rfl
  have h4 : getUint32 (encodeRecord x y md fl t) 4 =
      y % 256 % 256 + 256 * (y / 256 % 256 % 256) + 65536 * (y / 65536 % 256 % 256) +
        16777216 * (y / 16777216 % 256 % 256) := rfl
  have h8 : getUint32 (encodeRecord x y md fl t) 8 =
      md % 256 % 256 + 256 * (md / 256 % 256 % 256) + 65536 * (md / 65536 % 256 % 256) +
        16777216 * (md / 16777216 % 256 % 256) := rfl
  have h12 : getUint32 (encodeRecord x y md fl t) 12 =
      fl % 256 % 256 + 256 * (fl / 256 % 256 % 256) + 65536 * (fl / 65536 % 256 % 256) +
        16777216 * (fl / 16777216 % 256 % 256) := rfl
  have h16 : getUint32 (encodeRecord x y md fl t) 16 =
      t % 256 % 256 + 256 * (t / 256 % 256 % 256) + 65536 * (t / 65536 % 256 % 256) +
        16777216 * (t / 16777216 % 256 % 256) := rfl
  have e0 : getUint32 (encodeRecord x y md fl t) 0 = x := by omega
  have e4 : getUint32 (encodeRecord x y md fl t) 4 = y := by omega
  have e8 : getUint32 (encodeRecord x y md fl t) 8 = md := by omega
  have e12 : getUint32 (encodeRecord x y md fl t) 12 = fl := by omega
  have e16 : getUint32 (encodeRecord x y md fl t) 16 = t := by omega
  have hEv : mkEventV2 (encodeRecord x y md fl t) =
      { x := toInt32 x, y := toInt32 y, mouseData := toInt32 md, flags := fl,
        time := t } := by
    simp only [mkEventV2, getInt32, e0, e4, e8, e12, e16]
  have hsome : (eventNameMap w).isSome := by
    simp only [knownCodes, List.mem_cons, List.not_mem_nil, or_false] at hw
    rcases hw with rfl|rfl|rfl|rfl|rfl|rfl|rfl|rfl|rfl|rfl <;> decide
  obtain ⟨s, hs⟩ := Option.isSome_iff_exists.mp hsome
  refine ⟨by simp only [getInt32, e0], by simp only [getInt32, e4],
    by simp only [getInt32, e8], e12, e16, ?_⟩
  simp [hookCallbackV2, hn, hs, hEv]

/-- C3 (witness): the round trip evaluated at a concrete record and the
mousemove message code. -/
theorem c3_record_roundtrip_witness :
    ((hookCallbackV2 next0 0 0x0200 (some (encodeRecord 7 11 13 17 19))).dispatched.map
      Prod.snd) =
      [{ x := toInt32 7, y := toInt32 11, mouseData := toInt32 13, flags := 17,
         time := 19 }] :=
  (c3_record_roundtrip 7 11 13 17 19 (by decide) (by decide) (by decide) (by decide)
    (by decide) 0x0200 (by decide) next0 0 (by decide)).2.2.2.2.2

/-- C4: the fine-grained flags structure is derived from the raw 32-bit
flags word by testing bit 0 for injected and bit 1 for lower-integrity
injected — raw 0x03 decodes to both true and raw 0x00 to both false — and
the coarse variant carries the raw flags word through unchanged. -/
theorem c4_flags_decoding (raw : Nat) (buf : List Nat) :
    (decodeFlags raw).injected = raw.testBit 0 ∧
    (decodeFlags raw).lowerIlInjected = raw.testBit 1 ∧
    decodeFlags 0x03 = { injected := true, lowerIlInjected := true } ∧
    decodeFlags 0x00 = { injected := false, lowerIlInjected := false } ∧
    (mkEventV2 buf).flags = getUint32 buf 12 := by
  refine ⟨?_, ?_, by decide, by decide, rfl⟩
  · have h1 : raw &&& 1 = raw % 2 := Nat.and_one_is_mod raw
    have h2 : raw % 2 = 0 ∨ raw % 2 = 1 := Nat.mod_two_eq_zero_or_one raw
    rcases h2 with h|h <;> simp [decodeFlags, h1, h, Nat.testBit_zero]
  · have h2 : raw &&& 2 = (raw.testBit 1).toNat * 2 := by
      have := Nat.and_two_pow raw 1
      simpa using this
    cases h : raw.testBit 1 <;> simp [decodeFlags, h2, h]
